import Mathlib

/-!
Verification of the TaskTracker task/time-tracking application.

The application is a React front end over a PostgreSQL store (Supabase) with
row-level-security policies.  This file gives a shallow embedding of the parts
the verified properties talk about:

* the `time_logs` table, its `calculate_time_log_duration` trigger and the
  client operations `startTimer`, `stopTimer`, `handleManualEntry`
  (time-tracking page and the time_logs migration);
* the dashboard's `overdueTasks` count (`fetchDashboardData`);
* the `profiles` table's update policies ("Users can update own profile",
  "Admins can update all profiles") and the role/status update issued by the
  Users page;
* the navigation filter (`filteredNavItems` in `Layout.tsx`) and the Users
  page's admin gate;
* the `projects` table insert/fetch (Projects page, projects migration);
* the calendar's task bucketing (`getTasksForDate`, `fetchTasks` in the
  Calendar page).

Modelling conventions: uuid columns are modelled as `Nat` identifiers;
`timestamptz` columns as `Int` seconds since the epoch (one-second
resolution, which covers every whole-second instant the properties mention);
`date` columns as `Int` day numbers; nullable columns as `Option`; a table as
a `List` of row structures; a PostgREST insert/update as a pure function on
that list, with the migration's column defaults and the row triggers applied.
-/

namespace TaskMgmt

/-- `profiles.role`: `'admin' | 'project_manager' | 'employee'` (profiles migration). -/
inductive Role
  | admin
  | project_manager
  | employee
deriving DecidableEq

/-- `profiles.status`: `'active' | 'inactive'` (profiles migration). -/
inductive ProfileStatus
  | active
  | inactive
deriving DecidableEq

/-- `tasks.status`: `'to_do' | 'in_progress' | 'completed' | 'on_hold'` (tasks migration). -/
inductive TaskStatus
  | to_do
  | in_progress
  | completed
  | on_hold
deriving DecidableEq

/-- `time_logs.approval_status`: `'pending' | 'approved' | 'rejected'`,
column default `'approved'` (time_logs migration). -/
inductive ApprovalStatus
  | pending
  | approved
  | rejected
deriving DecidableEq

/-- `projects.status`: `'planned' | 'in_progress' | 'completed'`,
column default `'planned'` (projects migration). -/
inductive ProjectStatus
  | planned
  | in_progress
  | completed
deriving DecidableEq

/-- The UTC day of a timestamp, as written by the client's
`new Date().toISOString().split('T')[0]` (86400 seconds per UTC day). -/
def dayOf (t : Int) : Int := t / 86400

/-- A row of `time_logs` (time_logs migration). -/
structure TimeLogRow where
  id : Nat
  user_id : Nat
  task_id : Nat
  project_id : Option Nat
  start_time : Int
  end_time : Option Int
  duration_minutes : Option Int
  date : Int
  approval_status : ApprovalStatus
deriving DecidableEq

/-- An insert payload for `time_logs`, mirroring the generated `Insert` type
in `database.types.ts`: a `none` in an optional field means the key is absent
(or null) and the column default applies where the schema declares one. -/
structure TimeLogInsert where
  user_id : Nat
  task_id : Nat
  project_id : Option Nat
  start_time : Int
  end_time : Option Int
  duration_minutes : Option Int
  date : Int
  approval_status : Option ApprovalStatus
deriving DecidableEq

/-- PostgreSQL evaluation of `EXTRACT(EPOCH FROM (NEW.end_time - NEW.start_time)) / 60`
assigned to the `integer` column `duration_minutes` inside the trigger function
`calculate_time_log_duration`: `EXTRACT(EPOCH ...)` yields the exact signed
number of seconds of the interval as a `numeric` (timestamps are modelled at
one-second resolution), the `numeric` division by 60 is exact at the relevant
precision, and the assignment cast `numeric → integer` rounds to the nearest
integer with ties away from zero.  Both branch arguments of the division below
are nonnegative, so `Int` division is plain floor division. -/
def pgEpochOver60ToInt (seconds : Int) : Int :=
  if 0 ≤ seconds then (seconds + 30) / 60 else -((30 - seconds) / 60)

/-- The trigger function `calculate_time_log_duration` (time_logs migration),
run `BEFORE INSERT OR UPDATE ON time_logs FOR EACH ROW`: when `NEW.end_time`
is non-null it sets `NEW.duration_minutes` from the timestamp delta, else it
sets `NEW.duration_minutes` to null. -/
def calculate_time_log_duration (r : TimeLogRow) : TimeLogRow :=
  match r.end_time with
  | some e => { r with duration_minutes := some (pgEpochOver60ToInt (e - r.start_time)) }
  | none => { r with duration_minutes := none }

/-- Insert into `time_logs`: the schema default `approval_status = 'approved'`
applies when the payload omits the field, and the duration trigger runs on the
new row.  `fid` is the generated `id`. -/
def timeLogsInsert (db : List TimeLogRow) (p : TimeLogInsert) (fid : Nat) : List TimeLogRow :=
  db ++ [calculate_time_log_duration
    { id := fid
      user_id := p.user_id
      task_id := p.task_id
      project_id := p.project_id
      start_time := p.start_time
      end_time := p.end_time
      duration_minutes := p.duration_minutes
      date := p.date
      approval_status := p.approval_status.getD ApprovalStatus.approved }]

/-- Update of the `time_logs` row with id `logId` by field assignments `f`
(a PostgREST `update(...).eq('id', logId)`): the duration trigger runs on each
updated row. -/
def timeLogsUpdate (db : List TimeLogRow) (logId : Nat) (f : TimeLogRow → TimeLogRow) :
    List TimeLogRow :=
  db.map fun r => if r.id = logId then calculate_time_log_duration (f r) else r

/-- `startTimer(taskId)` on the time-tracking page: inserts a `time_logs` row
with the current user, the chosen task, `start_time = now`, `date = today`,
and no `end_time` and no `approval_status` in the payload.  There is no check
against an already-running log. -/
def startTimer (uid taskId : Nat) (now : Int) (fid : Nat) (db : List TimeLogRow) :
    List TimeLogRow :=
  timeLogsInsert db
    { user_id := uid
      task_id := taskId
      project_id := none
      start_time := now
      end_time := none
      duration_minutes := none
      date := dayOf now
      approval_status := none }
    fid

/-- The manual-entry form data on the time-tracking page (`task_id`, `date`,
`start_time`, `end_time`; all inputs are required). -/
structure ManualEntryForm where
  task_id : Nat
  date : Int
  start_time : Int
  end_time : Int
deriving DecidableEq

/-- `handleManualEntry` on the time-tracking page: the insert payload built
from the form always carries `approval_status: 'pending'`. -/
def manualEntryPayload (uid : Nat) (form : ManualEntryForm) : TimeLogInsert :=
  { user_id := uid
    task_id := form.task_id
    project_id := none
    start_time := form.start_time
    end_time := some form.end_time
    duration_minutes := none
    date := form.date
    approval_status := some ApprovalStatus.pending }

/-- The time-tracking component's local state: `activeLog` and the
display-only `elapsedTime` counter. -/
structure TimerClient where
  activeLog : Option TimeLogRow
  elapsedTime : Int
deriving DecidableEq

/-- `stopTimer` on the time-tracking page: `if (!activeLog) return;` —
otherwise it updates the active row's `end_time = now`, clears `activeLog`
and resets `elapsedTime`. -/
def stopTimer (st : TimerClient) (now : Int) (db : List TimeLogRow) :
    TimerClient × List TimeLogRow :=
  match st.activeLog with
  | none => (st, db)
  | some log =>
      (⟨none, 0⟩, timeLogsUpdate db log.id fun r => { r with end_time := some now })

/-- The rows of `time_logs` that are "active timers" for a user: `user_id`
matches and `end_time` is null (the query in `checkActiveLog`). -/
def activeLogsFor (db : List TimeLogRow) (uid : Nat) : List TimeLogRow :=
  db.filter fun r => decide (r.user_id = uid ∧ r.end_time = none)

/-- The duration invariant maintained by the trigger: `duration_minutes` is
the rounded minute count of the interval when `end_time` is set, else null. -/
def DurationConsistent (r : TimeLogRow) : Prop :=
  match r.end_time with
  | some e => r.duration_minutes = some (pgEpochOver60ToInt (e - r.start_time))
  | none => r.duration_minutes = none

/-- The task fields the dashboard's overdue computation reads. -/
structure DashTask where
  status : TaskStatus
  end_date : Option Int
deriving DecidableEq

/-- The per-task overdue test inside `fetchDashboardData` on the dashboard:
`t.end_date && new Date(t.end_date) < new Date() && t.status !== 'completed'`
(a null `end_date` is falsy, so such a task is never overdue). -/
def dashIsOverdue (now : Int) (t : DashTask) : Bool :=
  (match t.end_date with
   | some d => decide (d < now)
   | none => false) && decide (t.status ≠ TaskStatus.completed)

/-- The dashboard's `overdueTasks` statistic: the length of the filtered
task list (`fetchDashboardData`). -/
def dashOverdueCount (now : Int) (tasks : List DashTask) : Nat :=
  (tasks.filter (dashIsOverdue now)).length

/-- The overdue property as the specification words it: the task has a
non-null `end_date` strictly before now and its status is not completed. -/
def OverdueSpec (now : Int) (t : DashTask) : Prop :=
  (∃ d, t.end_date = some d ∧ d < now) ∧ t.status ≠ TaskStatus.completed

instance (now : Int) (t : DashTask) : Decidable (OverdueSpec now t) :=
  match h : t.end_date with
  | some d =>
      have hiff : (d < now ∧ t.status ≠ TaskStatus.completed) ↔ OverdueSpec now t := by
        constructor
        · rintro ⟨hlt, hs⟩
          exact ⟨⟨d, h, hlt⟩, hs⟩
        · rintro ⟨⟨d2, hd2, hlt⟩, hs⟩
          rw [h] at hd2
          cases hd2
          exact ⟨hlt, hs⟩
      decidable_of_iff _ hiff
  | none =>
      isFalse (by rintro ⟨⟨d2, hd2, _⟩, _⟩; rw [h] at hd2; exact Option.noConfusion hd2)

/-- A row of `profiles` (profiles migration). -/
structure ProfileRow where
  id : Nat
  full_name : String
  email : String
  role : Role
  status : ProfileStatus
deriving DecidableEq

/-- The admin test used throughout the policies:
`EXISTS (SELECT 1 FROM profiles WHERE profiles.id = auth.uid() AND profiles.role = 'admin')`. -/
def isAdminB (db : List ProfileRow) (uid : Nat) : Bool :=
  db.any fun p => decide (p.id = uid ∧ p.role = Role.admin)

/-- `SELECT role/status FROM profiles WHERE id = auth.uid()` inside the
"Users can update own profile" policy's `WITH CHECK`: the caller's own row of
the statement snapshot (readable under the "Users can view own profile"
select policy). -/
def findProfile (db : List ProfileRow) (uid : Nat) : Option ProfileRow :=
  db.find? fun p => decide (p.id = uid)

/-- The field assignment issued by the Users page's `handleSubmit`:
`update({ role, status }).eq('id', target)`. -/
def profileUpdateApply (newRole : Role) (newStatus : ProfileStatus) (r : ProfileRow) :
    ProfileRow :=
  { r with role := newRole, status := newStatus }

/-- Whether an update statement targeting `id = target` reaches a given row:
the row matches the `eq` filter and passes the `USING` clause of some
permissive update policy — `auth.uid() = id` ("Users can update own profile")
or the admin test ("Admins can update all profiles"); permissive policies
are combined with OR. -/
def profileRowTouched (db : List ProfileRow) (caller target : Nat) (r : ProfileRow) : Bool :=
  decide (r.id = target) && (decide (caller = r.id) || isAdminB db caller)

/-- The combined `WITH CHECK` on an updated `profiles` row (permissive
policies OR'd): the admin test, or `auth.uid() = id` together with the new
`role` and `status` equalling the caller's stored ones (a null subselect
result makes the check fail). -/
def profileWithCheckOk (db : List ProfileRow) (caller : Nat) (nr : ProfileRow) : Bool :=
  isAdminB db caller ||
    (decide (caller = nr.id) &&
      match findProfile db caller with
      | some p => decide (nr.role = p.role ∧ nr.status = p.status)
      | none => false)

/-- The role/status update of `handleSubmit` on the Users page as executed by
the store under row-level security: rows failing `USING` are invisible and
skipped; if any updated row fails `WITH CHECK` the whole statement errors
(`none`); otherwise the touched rows get the new field values.  Policy
subselects read the statement snapshot, i.e. the pre-update `db`. -/
def profilesUpdate (db : List ProfileRow) (caller target : Nat) (newRole : Role)
    (newStatus : ProfileStatus) : Option (List ProfileRow) :=
  if db.all (fun r =>
      !profileRowTouched db caller target r ||
        profileWithCheckOk db caller (profileUpdateApply newRole newStatus r)) then
    some (db.map fun r =>
      if profileRowTouched db caller target r then profileUpdateApply newRole newStatus r
      else r)
  else none

/-- The table contents after the update statement: unchanged when the
statement errors (the client catches the error and refetches). -/
def profilesUpdateResult (db : List ProfileRow) (caller target : Nat) (newRole : Role)
    (newStatus : ProfileStatus) : List ProfileRow :=
  (profilesUpdate db caller target newRole newStatus).getD db

/-- A sidebar navigation entry in `Layout.tsx`: route (the source's `to`
field), label, and the roles the entry is shown to. -/
structure NavItem where
  route : String
  label : String
  roles : List Role
deriving DecidableEq

/-- The `navItems` array in `Layout.tsx`. -/
def navItems : List NavItem :=
  [ { route := "/", label := "Dashboard",
      roles := [Role.admin, Role.project_manager, Role.employee] },
    { route := "/projects", label := "Projects",
      roles := [Role.admin, Role.project_manager, Role.employee] },
    { route := "/tasks", label := "Tasks",
      roles := [Role.admin, Role.project_manager, Role.employee] },
    { route := "/time-tracking", label := "Time Tracking",
      roles := [Role.admin, Role.project_manager, Role.employee] },
    { route := "/calendar", label := "Calendar",
      roles := [Role.admin, Role.project_manager, Role.employee] },
    { route := "/reports", label := "Reports",
      roles := [Role.admin, Role.project_manager] },
    { route := "/users", label := "Users",
      roles := [Role.admin] } ]

/-- `filteredNavItems` in `Layout.tsx`:
`navItems.filter(item => item.roles.includes(profile?.role || 'employee'))`. -/
def filteredNavItems (profileRole : Option Role) : List NavItem :=
  navItems.filter fun item => decide (profileRole.getD Role.employee ∈ item.roles)

/-- Modelled from the spec: the `isAdmin` flag of `AuthContext`
(`src/contexts/AuthContext.tsx` is not in the repository snapshot).  Per the
spec's role tiers and the admin-only Users page, it is true exactly when the
profile's role is `admin`. -/
def authIsAdmin (role : Role) : Bool :=
  decide (role = Role.admin)

/-- The three renderings of the Users page. -/
inductive UsersView
  | permissionDenied
  | spinner
  | table
deriving DecidableEq

/-- The render path of the Users page component: `if (!isAdmin)` the
permission-denied view, else the spinner while loading, else the user
table. -/
def usersPageView (adminFlag loading : Bool) : UsersView :=
  if !adminFlag then UsersView.permissionDenied
  else if loading then UsersView.spinner
  else UsersView.table

/-- The Users page's `useEffect`: `if (!isAdmin) return;` then
`fetchUsers()` — so the profiles query is issued exactly when the caller is
an admin. -/
def usersEffectFetches (adminFlag : Bool) : Bool :=
  adminFlag

/-- A row of `projects` (projects migration). -/
structure ProjectRow where
  id : Nat
  name : String
  description : Option String
  manager_id : Option Nat
  start_date : Option Int
  end_date : Option Int
  status : ProjectStatus
deriving DecidableEq

/-- An insert payload for `projects`, mirroring the generated `Insert` type:
`none` means the key is absent or null; the only schema-declared default
among these columns is `status DEFAULT 'planned'`. -/
structure ProjectInsert where
  name : String
  description : Option String
  manager_id : Option Nat
  start_date : Option Int
  end_date : Option Int
  status : Option ProjectStatus
deriving DecidableEq

/-- Insert into `projects` (`handleSubmit`'s create branch at the store):
columns without a payload value take the schema default where one is
declared (`status`), and stay null otherwise. -/
def projectsInsert (db : List ProjectRow) (p : ProjectInsert) (fid : Nat) : List ProjectRow :=
  db ++ [{ id := fid
           name := p.name
           description := p.description
           manager_id := p.manager_id
           start_date := p.start_date
           end_date := p.end_date
           status := p.status.getD ProjectStatus.planned }]

/-- Fetch a `projects` row by id. -/
def fetchProjectById (db : List ProjectRow) (pid : Nat) : Option ProjectRow :=
  db.find? fun r => decide (r.id = pid)

/-- The task fields the calendar reads. -/
structure CalTask where
  id : Nat
  name : String
  status : TaskStatus
  start_date : Option Int
  end_date : Option Int
deriving DecidableEq

/-- `date-fns`'s `isSameDay` on the calendar: with dates modelled as day
numbers this is equality. -/
def isSameDay (a b : Int) : Bool :=
  decide (a = b)

/-- `getTasksForDate` on the calendar page:
`tasks.filter(task => { if (!task.end_date) return false; return isSameDay(new Date(task.end_date), date); })`. -/
def getTasksForDate (tasks : List CalTask) (date : Int) : List CalTask :=
  tasks.filter fun task =>
    match task.end_date with
    | none => false
    | some e => isSameDay e date

/-- The calendar page's `fetchTasks` month filter:
`.gte('end_date', monthStart).lte('end_date', monthEnd)` — a null `end_date`
compares as SQL null, so the row is excluded. -/
def calendarFetchTasks (db : List CalTask) (monthStart monthEnd : Int) : List CalTask :=
  db.filter fun t =>
    match t.end_date with
    | none => false
    | some d => decide (monthStart ≤ d ∧ d ≤ monthEnd)

/-- The duration trigger establishes the duration invariant on any row it
processes. -/
lemma durationConsistent_calculate (r : TimeLogRow) :
    DurationConsistent (calculate_time_log_duration r) := by
  unfold DurationConsistent calculate_time_log_duration
  cases r.end_time <;> rfl

/-- The stored minute count is within 30 seconds of the exact timestamp
delta: the cast rounds to the nearest minute. -/
lemma pgEpochOver60ToInt_bounds (d : Int) :
    60 * pgEpochOver60ToInt d - 30 ≤ d ∧ d ≤ 60 * pgEpochOver60ToInt d + 30 := by
  unfold pgEpochOver60ToInt
  by_cases h : 0 ≤ d
  · rw [if_pos h]
    omega
  · rw [if_neg h]
    omega

/-- C1, counterexample: the claim says `duration_minutes` is the timestamp
delta in minutes truncated toward zero, so start `09:00:00` (32400 s) and end
`09:01:30` (32490 s) would store 1.  The trigger in fact stores 2: the
`numeric → integer` assignment cast rounds `90 / 60 = 1.5` to the nearest
integer, while truncation toward zero of the same delta gives 1. -/
theorem duration_trigger_not_truncating :
    (calculate_time_log_duration
      { id := 0, user_id := 1, task_id := 1, project_id := none, start_time := 32400,
        end_time := some 32490, duration_minutes := none, date := 0,
        approval_status := ApprovalStatus.approved }).duration_minutes = some 2 ∧
    Int.tdiv (32490 - 32400) 60 = 1 ∧ (2 : Int) ≠ 1 := by
  decide

/-- C1, amended: for every `time_logs` row after any insert or update, if
`end_time` is non-null then `duration_minutes` is `(end_time − start_time)`
in minutes rounded to the nearest integer (ties away from zero, the
PostgreSQL `numeric → integer` assignment cast), so the stored minute count
is within 30 seconds of the exact delta; if `end_time` is null then
`duration_minutes` is null; for start `09:00:00` and end `09:01:30` the
stored duration is 2. -/
theorem duration_invariant_after_insert_update
    (db : List TimeLogRow) (p : TimeLogInsert) (fid logId : Nat)
    (f : TimeLogRow → TimeLogRow)
    (h : ∀ r ∈ db, DurationConsistent r) :
    (∀ r ∈ timeLogsInsert db p fid, DurationConsistent r) ∧
    (∀ r ∈ timeLogsUpdate db logId f, DurationConsistent r) ∧
    (∀ r : TimeLogRow, DurationConsistent r → ∀ e : Int, r.end_time = some e →
      ∃ m : Int, r.duration_minutes = some m ∧
        60 * m - 30 ≤ e - r.start_time ∧ e - r.start_time ≤ 60 * m + 30) ∧
    (∀ r : TimeLogRow, DurationConsistent r → r.end_time = none →
      r.duration_minutes = none) ∧
    pgEpochOver60ToInt (32490 - 32400) = 2 := by
  refine ⟨?_, ?_, ?_, ?_, by decide⟩
  · intro r hr
    rw [timeLogsInsert, List.mem_append] at hr
    rcases hr with hr | hr
    · exact h r hr
    · rw [List.mem_singleton] at hr
      rw [hr]
      exact durationConsistent_calculate _
  · intro r hr
    rw [timeLogsUpdate, List.mem_map] at hr
    obtain ⟨a, ha, hra⟩ := hr
    by_cases hid : a.id = logId
    · rw [if_pos hid] at hra
      rw [← hra]
      exact durationConsistent_calculate _
    · rw [if_neg hid] at hra
      rw [← hra]
      exact h a ha
  · intro r hc e he
    unfold DurationConsistent at hc
    rw [he] at hc
    exact ⟨pgEpochOver60ToInt (e - r.start_time), hc,
      pgEpochOver60ToInt_bounds (e - r.start_time)⟩
  · intro r hc he
    unfold DurationConsistent at hc
    rw [he] at hc
    exact hc

/-- Witness for the amended C1 theorem at a concrete insert: the row created
from a 90-second interval satisfies the duration invariant, and the stored
value is 2 minutes. -/
theorem duration_invariant_after_insert_update_witness :
    DurationConsistent (calculate_time_log_duration
      { id := 7, user_id := 1, task_id := 1, project_id := none, start_time := 32400,
        end_time := some 32490, duration_minutes := none, date := 0,
        approval_status := ApprovalStatus.pending }) ∧
    pgEpochOver60ToInt (32490 - 32400) = 2 := by
  have h := duration_invariant_after_insert_update []
    { user_id := 1, task_id := 1, project_id := none, start_time := 32400,
      end_time := some 32490, duration_minutes := none, date := 0,
      approval_status := some ApprovalStatus.pending } 7 0 (fun r => r)
    (by intro r hr; exact absurd hr (List.not_mem_nil r))
  exact ⟨h.1 _ (List.mem_singleton.mpr rfl), h.2.2.2.2⟩

/-- C2: the claim says starting a timer while the user already has a running
`time_logs` row is rejected or does not create a second concurrently-running
row.  `startTimer` performs no such check and no uniqueness constraint
exists, so at the failing input — a user with one running log invoking
`startTimer` again — the user ends up with two rows whose `end_time` is
null. -/
theorem startTimer_double_start_two_active_rows :
    (activeLogsFor (startTimer 1 8 2000 11 (startTimer 1 7 1000 10 [])) 1).length = 2 := by
  decide

/-- C3: every manual time entry creates its `time_logs` row with
`approval_status = 'pending'`, whatever the submitted task, date and times:
`handleManualEntry` hard-codes the field in the insert payload. -/
theorem manual_entry_always_pending (db : List TimeLogRow) (uid fid : Nat)
    (form : ManualEntryForm) :
    ∃ r, timeLogsInsert db (manualEntryPayload uid form) fid = db ++ [r] ∧
      r.approval_status = ApprovalStatus.pending ∧ r.user_id = uid ∧
      r.task_id = form.task_id ∧ r.start_time = form.start_time ∧
      r.end_time = some form.end_time :=
  ⟨_, rfl, rfl, rfl, rfl, rfl, rfl⟩

/-- C9: every `time_logs` row created by `startTimer` has
`approval_status = 'approved'`: the insert payload omits the field and the
schema default is `'approved'`; the row starts running (`end_time` null) with
a null duration. -/
theorem startTimer_log_created_approved (db : List TimeLogRow) (uid taskId fid : Nat)
    (now : Int) :
    ∃ r, startTimer uid taskId now fid db = db ++ [r] ∧
      r.approval_status = ApprovalStatus.approved ∧ r.end_time = none ∧
      r.duration_minutes = none ∧ r.user_id = uid ∧ r.task_id = taskId :=
  ⟨_, rfl, rfl, rfl, rfl, rfl, rfl⟩

/-- C10: invoking `stopTimer` while no log is active (`activeLog` null)
returns immediately: no database update is issued and the client state is
unchanged. -/
theorem stopTimer_idle_is_noop (st : TimerClient) (now : Int) (db : List TimeLogRow)
    (h : st.activeLog = none) :
    stopTimer st now db = (st, db) := by
  unfold stopTimer
  rw [h]

/-- Witness for the C10 theorem at a concrete idle state and store. -/
theorem stopTimer_idle_is_noop_witness :
    stopTimer ⟨none, 0⟩ 1000 [] = (⟨none, 0⟩, []) :=
  stopTimer_idle_is_noop ⟨none, 0⟩ 1000 [] rfl

/-- C4: the dashboard's `overdueTasks` count equals the number of tasks with
a non-null `end_date` strictly before now and a status other than completed;
a task due yesterday and in progress counts 1, the same task completed
counts 0. -/
theorem dashboard_overdue_count_correct (now : Int) (tasks : List DashTask) :
    dashOverdueCount now tasks = tasks.countP (fun t => decide (OverdueSpec now t)) ∧
    dashOverdueCount 86400 [{ status := TaskStatus.in_progress, end_date := some 0 }] = 1 ∧
    dashOverdueCount 86400 [{ status := TaskStatus.completed, end_date := some 0 }] = 0 := by
  refine ⟨?_, by decide, by decide⟩
  rw [dashOverdueCount, List.countP_eq_length_filter]
  congr 1
  apply List.filter_congr
  intro t ht
  by_cases hP : OverdueSpec now t
  · rw [decide_eq_true hP]
    obtain ⟨⟨d, hd, hlt⟩, hs⟩ := hP
    rw [dashIsOverdue, hd]
    show (decide (d < now) && decide (t.status ≠ TaskStatus.completed)) = true
    rw [decide_eq_true hlt, decide_eq_true hs, Bool.true_and]
  · rw [decide_eq_false hP, dashIsOverdue]
    cases hed : t.end_date with
    | none => rfl
    | some d =>
        show (decide (d < now) && decide (t.status ≠ TaskStatus.completed)) = false
        rcases Decidable.em (d < now) with hlt | hlt
        · have hs : ¬t.status ≠ TaskStatus.completed := fun hs => hP ⟨⟨d, hed, hlt⟩, hs⟩
          rw [decide_eq_false hs, Bool.and_false]
        · rw [decide_eq_false hlt, Bool.false_and]

/-- C5: a profiles update issued by a non-admin caller can never change the
`role` or `status` of any profile: for the caller's own row the "Users can
update own profile" policy's `WITH CHECK` forces the new values to equal the
stored ones (so the update either errors or rewrites the row to itself), and
every other row is invisible to the statement; ids are unique (primary
key). -/
theorem nonadmin_update_preserves_role_status
    (db : List ProfileRow) (caller target : Nat) (newRole : Role)
    (newStatus : ProfileStatus)
    (hA : isAdminB db caller = false)
    (hids : (db.map ProfileRow.id).Nodup) :
    profilesUpdateResult db caller target newRole newStatus = db := by
  unfold profilesUpdateResult profilesUpdate
  by_cases hall : db.all (fun r =>
      !profileRowTouched db caller target r ||
        profileWithCheckOk db caller (profileUpdateApply newRole newStatus r)) = true
  · simp only [hall, if_true, Option.getD_some]
    have hfix : ∀ r ∈ db,
        (if profileRowTouched db caller target r then
          profileUpdateApply newRole newStatus r else r) = r := by
      intro r hr
      by_cases htouch : profileRowTouched db caller target r = true
      · rw [if_pos htouch]
        have hcheck := List.all_eq_true.mp hall r hr
        rw [htouch] at hcheck
        simp only [Bool.not_true, Bool.false_or] at hcheck
        have hcaller : caller = r.id := by
          rw [profileRowTouched, Bool.and_eq_true, Bool.or_eq_true, hA] at htouch
          rcases htouch.2 with hc | hc
          · exact of_decide_eq_true hc
          · exact absurd hc (by simp)
        rw [profileWithCheckOk, hA, Bool.false_or, Bool.and_eq_true] at hcheck
        rcases hfind : findProfile db caller with _ | p
        · rw [hfind] at hcheck
          exact absurd hcheck.2 (by simp)
        · rw [hfind] at hcheck
          have hp : newRole = p.role ∧ newStatus = p.status :=
            of_decide_eq_true hcheck.2
          unfold findProfile at hfind
          have hpmem : p ∈ db := List.mem_of_find?_eq_some hfind
          have hpid' := List.find?_some hfind
          have hpid : p.id = caller := of_decide_eq_true hpid'
          have hpr : p = r :=
            List.inj_on_of_nodup_map hids hpmem hr (by rw [hpid, hcaller])
          rw [profileUpdateApply, hp.1, hp.2, hpr]
      · rw [if_neg htouch]
    rw [List.map_congr_left hfix]
    exact List.map_id db
  · rw [Bool.not_eq_true] at hall
    simp [hall]

/-- Witness for the C5 theorem: a non-admin employee trying to promote
themself to admin leaves the profiles table unchanged. -/
theorem nonadmin_update_preserves_role_status_witness :
    profilesUpdateResult
      [{ id := 1, full_name := "Eve", email := "eve", role := Role.employee,
         status := ProfileStatus.active }] 1 1 Role.admin ProfileStatus.active =
      [{ id := 1, full_name := "Eve", email := "eve", role := Role.employee,
         status := ProfileStatus.active }] :=
  nonadmin_update_preserves_role_status _ 1 1 Role.admin ProfileStatus.active
    (by decide) (by decide)

/-- C6: for a profile with role employee the navigation filter drops the
Reports and Users entries, and for any non-admin role the Users page renders
the permission-denied view (whatever the loading state) and its effect never
issues the profiles fetch. -/
theorem employee_hidden_reports_users
    (item : NavItem) (r : Role) (loading : Bool)
    (hmem : item ∈ filteredNavItems (some Role.employee))
    (hr : r ≠ Role.admin) :
    (item.label ≠ "Reports" ∧ item.label ≠ "Users") ∧
    usersPageView (authIsAdmin r) loading = UsersView.permissionDenied ∧
    usersEffectFetches (authIsAdmin r) = false := by
  refine ⟨?_, ?_, ?_⟩
  · have hall : ∀ it ∈ filteredNavItems (some Role.employee),
        it.label ≠ "Reports" ∧ it.label ≠ "Users" := by decide
    exact hall item hmem
  · cases r with
    | admin => exact absurd rfl hr
    | project_manager => cases loading <;> rfl
    | employee => cases loading <;> rfl
  · cases r with
    | admin => exact absurd rfl hr
    | project_manager => rfl
    | employee => rfl

/-- Witness for the C6 theorem at the Dashboard entry and the employee
role. -/
theorem employee_hidden_reports_users_witness :
    ((({ route := "/", label := "Dashboard",
         roles := [Role.admin, Role.project_manager, Role.employee] } : NavItem).label ≠
        "Reports" ∧
      ({ route := "/", label := "Dashboard",
         roles := [Role.admin, Role.project_manager, Role.employee] } : NavItem).label ≠
        "Users") ∧
      usersPageView (authIsAdmin Role.employee) true = UsersView.permissionDenied ∧
      usersEffectFetches (authIsAdmin Role.employee) = false) :=
  employee_hidden_reports_users _ Role.employee true (by decide) (by decide)

/-- C7: inserting a project whose optional fields (description, manager_id,
start_date, end_date) are all null and fetching it back by its id returns
those fields still null; the only defaulting applied is the schema-declared
`status DEFAULT 'planned'` when the payload omits the status. -/
theorem project_null_optionals_round_trip
    (db : List ProjectRow) (n : String) (st : Option ProjectStatus) (fid : Nat)
    (hfresh : ∀ r ∈ db, r.id ≠ fid) :
    fetchProjectById
      (projectsInsert db
        { name := n, description := none, manager_id := none,
          start_date := none, end_date := none, status := st } fid) fid =
      some { id := fid, name := n, description := none, manager_id := none,
             start_date := none, end_date := none,
             status := st.getD ProjectStatus.planned } := by
  unfold fetchProjectById projectsInsert
  rw [List.find?_append]
  have h1 : db.find? (fun r => decide (r.id = fid)) = none := by
    apply List.find?_eq_none.mpr
    intro x hx
    simp [hfresh x hx]
  rw [h1]
  simp

/-- Witness for the C7 theorem: a fresh project inserted next to an existing
row round-trips its null optional fields. -/
theorem project_null_optionals_round_trip_witness :
    fetchProjectById
      (projectsInsert
        [{ id := 1, name := "Q", description := some "d", manager_id := some 9,
           start_date := some 10, end_date := some 20,
           status := ProjectStatus.in_progress }]
        { name := "P", description := none, manager_id := none,
          start_date := none, end_date := none, status := none } 2) 2 =
      some { id := 2, name := "P", description := none, manager_id := none,
             start_date := none, end_date := none,
             status := ProjectStatus.planned } :=
  project_null_optionals_round_trip _ "P" none 2 (by decide)

/-- C8: a task with null `end_date` is assigned to no calendar cell —
`getTasksForDate` returns it for no date — and membership in a cell is
exactly matching `end_date`; the month fetch likewise only returns tasks
whose `end_date` is a non-null date inside the month bounds. -/
theorem calendar_buckets_by_end_date
    (tasks : List CalTask) (date monthStart monthEnd : Int) (t : CalTask) :
    (t.end_date = none → t ∉ getTasksForDate tasks date) ∧
    (t ∈ getTasksForDate tasks date ↔ t ∈ tasks ∧ t.end_date = some date) ∧
    (t ∈ calendarFetchTasks tasks monthStart monthEnd →
      ∃ d, t.end_date = some d ∧ monthStart ≤ d ∧ d ≤ monthEnd) := by
  refine ⟨?_, ?_, ?_⟩
  · intro hnone hmem
    rw [getTasksForDate, List.mem_filter, hnone] at hmem
    exact absurd hmem.2 (by simp)
  · rw [getTasksForDate, List.mem_filter]
    cases hed : t.end_date with
    | none => simp
    | some e => simp [isSameDay]
  · intro hmem
    rw [calendarFetchTasks, List.mem_filter] at hmem
    cases hed : t.end_date with
    | none =>
        rw [hed] at hmem
        exact absurd hmem.2 (by simp)
    | some d =>
        rw [hed] at hmem
        exact ⟨d, rfl, of_decide_eq_true hmem.2⟩

/-- Witness for the C8 theorem: a concrete task with null `end_date` is in no
calendar cell. -/
theorem calendar_buckets_by_end_date_witness :
    ({ id := 1, name := "t", status := TaskStatus.to_do, start_date := none,
       end_date := none } : CalTask) ∉
      getTasksForDate
        [{ id := 1, name := "t", status := TaskStatus.to_do, start_date := none,
           end_date := none }] 5 :=
  (calendar_buckets_by_end_date _ 5 0 0 _).1 rfl

end TaskMgmt
